import Mathlib

/-!
A shallow embedding of `src/generic_core/remote-connection.ts` (the
`RemoteConnection` class of the uproxy repository), an event-based
small-step semantics for its promise callbacks, and proofs of the
specification claims about it.

Modelling conventions:
* The machine state is the record `RemoteConnection` below; every mutable
  field of the TypeScript class is a field of the record.  The engine
  object references (`socksToRtc_`, `rtcToNet_`) are modelled by their
  nullness, since the session only ever tests and routes on that.
* Promise callbacks registered by the class (`onceReady.then`,
  `onceStopped.then`, `onceStopping_.then`, the `start` then/catch chain
  and the debounce `setTimeout`) are modelled as events of an
  environment-driven step relation; boolean bookkeeping fields of the
  record track which callbacks are currently armed, so that the
  environment can only fire callbacks the code has actually registered
  and that have not already been consumed.
* A thrown exception is `Except.error`; a method that runs to completion
  returns `Except.ok` (or a plain tuple).  The value a method hands back
  synchronously to its caller is modelled by `Ret`; in particular a bare
  `return;` in a `Promise`-typed method is `Ret.undef`, which is distinct
  from `Ret.resolvedPromise` (an explicit `Promise.resolve()`).
* Each operation returns, besides the successor state, the list of
  updates pushed through `sendUpdate_` during that operation, in order.
* The engines themselves (`socks-to-rtc`, `rtc-to-net`), the version
  constants (`constants.ts`), `globals.effectiveMessageVersion` and
  `rc4.randomConfig` are not part of the sources under study; where they
  are needed they are modelled from the spec and marked as such.
* JavaScript `Math.random()` results are modelled as rationals in
  `[0, 1)`; `Math.floor` is the integer floor.  The integer quantities
  involved (version numbers, byte counts, char codes) are far below any
  floating-point precision boundary, so this idealisation is exact on
  the values the code manipulates.
-/

set_option maxHeartbeats 1000000
set_option linter.unusedVariables false

/-- The getting-role state (`social.GettingState` in the sources). -/
inductive GettingState
  | NONE
  | TRYING_TO_GET_ACCESS
  | GETTING_ACCESS
  deriving DecidableEq, Repr

/-- The sharing-role state (`social.SharingState` in the sources). -/
inductive SharingState
  | NONE
  | TRYING_TO_SHARE_ACCESS
  | SHARING_ACCESS
  deriving DecidableEq, Repr

/-- The two `social.PeerMessageType` values `forwardSignal_` routes on.
Any other value of the enum takes the same warn-and-drop branch as a
role type whose engine is missing, so two constructors suffice for the
code under study. -/
inductive PeerMessageType
  | SIGNAL_FROM_CLIENT_PEER
  | SIGNAL_FROM_SERVER_PEER
  deriving DecidableEq, Repr

/-- A `net.Endpoint`. -/
structure Endpoint where
  address : String
  port : Nat
  deriving DecidableEq, Repr

/-- The payload of a signalling message.  `handleSignal` discriminates
the two envelope shapes structurally, by probing whether a `signals`
field is present (`(<any>message.data).signals !== undefined`); the
`signals` bundle itself is opaque to the session, so it is modelled as
an opaque list.  `SignallingMetadata` carries an optional
`proxyingId`. -/
structure PeerMessageData where
  signals : Option (List Nat) := none
  proxyingId : Option String := none
  deriving DecidableEq, Repr

/-- A `social.PeerMessage` as consumed by `handleSignal`. -/
structure PeerMessage where
  type : PeerMessageType
  data : PeerMessageData
  deriving DecidableEq, Repr

/-- The `uproxy_core_api.ConnectionState` snapshot built by
`getCurrentState`. -/
structure ConnectionState where
  bytesSent : Int
  bytesReceived : Int
  localGettingFromRemote : GettingState
  localSharingWithRemote : SharingState
  activeEndpoint : Option Endpoint
  deriving DecidableEq, Repr

/-- The updates the session pushes through its `sendUpdate_` sink.
(The two `REPROXY_*` updates of `handleStatusUpdate_` are omitted: no
claim concerns them and no modelled operation emits them.) -/
inductive Update
  | SIGNALLING_MESSAGE (type : PeerMessageType) (data : PeerMessageData)
  | START_GIVING
  | STOP_GIVING
  | STOP_GETTING (isError : Bool)
  | STATE (snapshot : ConnectionState)
  deriving DecidableEq, Repr

/-- The value a method hands back synchronously to its caller. -/
inductive Ret
  | undef
  | resolvedPromise
  | sharingResetPromise
  | engineStopPromise
  deriving DecidableEq, Repr

namespace MESSAGE_VERSIONS

/-- Modelled from the spec: `constants.ts` is not among the sources
under study.  The spec fixes `PRE_BRIDGE` at 1 (a remote advertising
version 1 selects it) and `CAESAR` at 3, orders the tiers with later
entries newer, treats `HOLOGRAPHIC_ICE` and `ENCRYPTED_SIGNALS` as one
shared-behaviour tier, and requires version 5 to be newer than every
named tier; the values below realise exactly those constraints. -/
def PRE_BRIDGE : Nat := 1

/-- Modelled from the spec: see `MESSAGE_VERSIONS.PRE_BRIDGE`. -/
def BRIDGE : Nat := 2

/-- Modelled from the spec: see `MESSAGE_VERSIONS.PRE_BRIDGE`. -/
def CAESAR : Nat := 3

/-- Modelled from the spec: see `MESSAGE_VERSIONS.PRE_BRIDGE`. -/
def HOLOGRAPHIC_ICE : Nat := 4

/-- Modelled from the spec: see `MESSAGE_VERSIONS.PRE_BRIDGE`.  The
spec treats this tier and `HOLOGRAPHIC_ICE` as a single shared-behaviour
case and requires both to be older than 5. -/
def ENCRYPTED_SIGNALS : Nat := 4

end MESSAGE_VERSIONS

/-- Modelled from the spec: the configuration produced by
`rc4.randomConfig()` (the `transformers/rc4` module is not among the
sources).  The spec says it is a stream-cipher configuration with a
fresh random key generated per call; the per-call randomness is
supplied as `rand` and the key is exactly that fresh draw. -/
structure Rc4Config where
  key : Nat
  deriving DecidableEq, Repr

namespace rc4

/-- Modelled from the spec: `rc4.randomConfig()` packages the fresh
per-call randomness into a cipher configuration. -/
def randomConfig (rand : Nat) : Rc4Config := ⟨rand⟩

end rc4

/-- The peer-connection construction the session picks: the legacy
`peerconnection.PeerConnectionClass` path, `bridge.best`,
`bridge.preObfuscation`, `bridge.basicObfuscation`, or
`bridge.holographicIceOnly` with an optional rc4 transformer config. -/
inductive PeerConnectionChoice
  | peerConnectionClass
  | bridgeBest
  | bridgePreObfuscation
  | bridgeBasicObfuscation
  | bridgeHolographicIceOnly (transformer : Option Rc4Config)
  deriving DecidableEq, Repr

/-- `var PROXYING_SESSION_ID_LENGTH = 16;` -/
def PROXYING_SESSION_ID_LENGTH : Nat := 16

/-- The inner `randomCharCode` of `generateProxyingSessionId_`:
`a + Math.floor(Math.random() * (b - a))` with `a = 97`, `b = 122`,
where `r` is the `Math.random()` draw. -/
def randomCharCode_ (r : ℚ) : Nat := 97 + (⌊r * (122 - 97 : ℚ)⌋).toNat

/-- The character codes pushed by the loop of
`generateProxyingSessionId_`, one `Math.random()` draw per position. -/
def proxyingSessionIdCodes_ (rs : Fin PROXYING_SESSION_ID_LENGTH → ℚ) : List Nat :=
  (List.finRange PROXYING_SESSION_ID_LENGTH).map fun i => randomCharCode_ (rs i)

/-- `generateProxyingSessionId_`: sixteen `String.fromCharCode` results
joined into one string. -/
def generateProxyingSessionId_ (rs : Fin PROXYING_SESSION_ID_LENGTH → ℚ) : String :=
  String.mk ((proxyingSessionIdCodes_ rs).map Char.ofNat)

/-- The mutable state of one `RemoteConnection` object.  The first nine
fields are the class fields; `pendingTimeout` records an armed debounce
`setTimeout` (with its delay in milliseconds); the six trailing booleans
record which promise callbacks are currently armed:
`sharerReadyPending` / `getStartPending` - the `onceReady.then/.catch`
resp. `start().then/.catch` chain has not settled yet;
`sharerStopCbPending` / `getStopCbPending` - the `onceStopped.then`
resp. `onceStopping_.then` cleanup handler has not run yet;
`sharerStopRequested` / `getStopRequested` - the session has called
`stop()` on the engine. -/
structure RemoteConnection where
  localGettingFromRemote : GettingState := .NONE
  localSharingWithRemote : SharingState := .NONE
  bytesSent_ : Int := 0
  bytesReceived_ : Int := 0
  socksToRtc_ : Bool := false
  rtcToNet_ : Bool := false
  isUpdatePending_ : Bool := false
  activeEndpoint : Option Endpoint := none
  proxyingId_ : Option String := none
  pendingTimeout : Option Nat := none
  sharerReadyPending : Bool := false
  sharerStopCbPending : Bool := false
  sharerStopRequested : Bool := false
  getStartPending : Bool := false
  getStopCbPending : Bool := false
  getStopRequested : Bool := false
  deriving DecidableEq, Repr

/-- The state of a freshly constructed `RemoteConnection`. -/
def initialState : RemoteConnection := {}

/-- `getCurrentState` - a pure read. -/
def getCurrentState (s : RemoteConnection) : ConnectionState :=
  { bytesSent := s.bytesSent_
    bytesReceived := s.bytesReceived_
    localGettingFromRemote := s.localGettingFromRemote
    localSharingWithRemote := s.localSharingWithRemote
    activeEndpoint := s.activeEndpoint }

/-- `stateRefresh_` - the `STATE` update it pushes, snapshotting the
state at the moment of the call. -/
def stateRefresh_ (s : RemoteConnection) : Update := .STATE (getCurrentState s)

/-- `delayedUpdate_`: if no refresh is pending, arm a 1000 ms
`setTimeout` and mark a refresh pending; otherwise do nothing. -/
def delayedUpdate_ (s : RemoteConnection) : RemoteConnection :=
  if s.isUpdatePending_ then s
  else { s with pendingTimeout := some 1000, isUpdatePending_ := true }

/-- The armed debounce timeout firing: `stateRefresh_()` then
`isUpdatePending_ = false` (the timeout is consumed). -/
def refreshTimeoutFires (s : RemoteConnection) : RemoteConnection × List Update :=
  ({ s with isUpdatePending_ := false, pendingTimeout := none }, [stateRefresh_ s])

/-- `handleBytesReceived_`: accumulate, then `delayedUpdate_()`.  No
update is emitted synchronously. -/
def handleBytesReceived_ (bytes : Int) (s : RemoteConnection) : RemoteConnection :=
  delayedUpdate_ { s with bytesReceived_ := s.bytesReceived_ + bytes }

/-- `handleBytesSent_`: accumulate, then `delayedUpdate_()`. -/
def handleBytesSent_ (bytes : Int) (s : RemoteConnection) : RemoteConnection :=
  delayedUpdate_ { s with bytesSent_ := s.bytesSent_ + bytes }

/-- Where `forwardSignal_` delivered (or failed to deliver) a signal. -/
inductive SignalOutcome
  | forwardedToRtcToNet
  | forwardedToSocksToRtc
  | droppedInvalid
  | metadataHandled
  deriving DecidableEq, Repr

/-- `forwardSignal_`: a signal typed "from client peer" goes to the
live `rtcToNet_` engine, one typed "from server peer" goes to the live
`socksToRtc_` engine, and otherwise the code logs a warning and
returns.  No branch mutates the session. -/
def forwardSignal_ (type : PeerMessageType) (s : RemoteConnection) : SignalOutcome :=
  if type = .SIGNAL_FROM_CLIENT_PEER ∧ s.rtcToNet_ = true then .forwardedToRtcToNet
  else if type = .SIGNAL_FROM_SERVER_PEER ∧ s.socksToRtc_ = true then .forwardedToSocksToRtc
  else .droppedInvalid

/-- `handleMetadataSignal_`: `if (message.proxyingId)` - a missing id
and the empty string (both falsy in JavaScript) are skipped. -/
def handleMetadataSignal_ (message : PeerMessageData) (s : RemoteConnection) :
    RemoteConnection :=
  match message.proxyingId with
  | some pid => if pid = "" then s else { s with proxyingId_ := some pid }
  | none => s

/-- `handleSignal`: envelopes carrying a `signals` field are forwarded
by role; everything else is treated as session metadata. -/
def handleSignal (message : PeerMessage) (s : RemoteConnection) :
    RemoteConnection × List Update × SignalOutcome :=
  if message.data.signals ≠ none then
    (s, [], forwardSignal_ message.type s)
  else
    (handleMetadataSignal_ message.data s, [], .metadataHandled)

/-- `startShare`: throws if a sharing engine exists; otherwise picks the
legacy peer connection for `remoteVersion < 2` and `bridge.best`
otherwise, creates the engine, registers the `onceStopped` cleanup and
the `onceReady` then/catch chain, moves to `TRYING_TO_SHARE_ACCESS` and
emits one `STATE` update. -/
def startShare (remoteVersion : Nat) (s : RemoteConnection) :
    Except String (RemoteConnection × List Update × PeerConnectionChoice) :=
  if s.rtcToNet_ then .error "rtcToNet_ already exists"
  else
    let pc : PeerConnectionChoice :=
      if remoteVersion < 2 then .peerConnectionClass else .bridgeBest
    let s1 : RemoteConnection :=
      { s with rtcToNet_ := true
               sharerReadyPending := true
               sharerStopCbPending := true
               sharerStopRequested := false
               localSharingWithRemote := .TRYING_TO_SHARE_ACCESS }
    .ok (s1, [stateRefresh_ s1], pc)

/-- The `sharingReset_` cleanup (`rtcToNet_.onceStopped.then(...)`):
state to `NONE`, `STOP_GIVING`, clear the engine, zero both byte
counters, `stateRefresh_()`. -/
def sharingReset_ (s : RemoteConnection) : RemoteConnection × List Update :=
  let s2 : RemoteConnection :=
    { s with localSharingWithRemote := .NONE
             rtcToNet_ := false
             bytesSent_ := 0
             bytesReceived_ := 0
             sharerStopCbPending := false }
  (s2, [.STOP_GIVING, stateRefresh_ s2])

/-- The `rtcToNet_.onceReady.then` handler: move to `SHARING_ACCESS`,
emit `START_GIVING` and a `STATE` update. -/
def sharerReadyHandler (s : RemoteConnection) : RemoteConnection × List Update :=
  let s1 : RemoteConnection :=
    { s with localSharingWithRemote := .SHARING_ACCESS, sharerReadyPending := false }
  (s1, [.START_GIVING, stateRefresh_ s1])

/-- `stopShare`: a warned no-op returning `Promise.resolve()` when not
sharing; otherwise state to `NONE`, one `STATE` update, `stop()` the
engine, and return the `sharingReset_` completion promise. -/
def stopShare (s : RemoteConnection) : RemoteConnection × List Update × Ret :=
  if s.localSharingWithRemote = .NONE then (s, [], .resolvedPromise)
  else
    let s1 : RemoteConnection :=
      { s with localSharingWithRemote := .NONE, sharerStopRequested := true }
    (s1, [stateRefresh_ s1], .sharingResetPromise)

/-- The `rtcToNet_.onceReady` `.catch` handler: it just calls
`stopShare()` (the rejection settles the ready chain first). -/
def sharerReadyFailureHandler (s : RemoteConnection) : RemoteConnection × List Update × Ret :=
  stopShare { s with sharerReadyPending := false }

/-- The transport-selection `switch` of `startGet` over
`commonVersion`, including the `HOLOGRAPHIC_ICE` / `ENCRYPTED_SIGNALS`
fall-through and the default (newer-than-every-named-tier) rc4 case,
whose transformer carries the configuration built from this call's
fresh randomness. -/
def selectGetPc (commonVersion : Nat) (rand : Nat) : PeerConnectionChoice :=
  if commonVersion = MESSAGE_VERSIONS.PRE_BRIDGE then .peerConnectionClass
  else if commonVersion = MESSAGE_VERSIONS.BRIDGE then .bridgePreObfuscation
  else if commonVersion = MESSAGE_VERSIONS.CAESAR then .bridgeBasicObfuscation
  else if commonVersion = MESSAGE_VERSIONS.HOLOGRAPHIC_ICE then .bridgeHolographicIceOnly none
  else if commonVersion = MESSAGE_VERSIONS.ENCRYPTED_SIGNALS then .bridgeHolographicIceOnly none
  else .bridgeHolographicIceOnly (some (rc4.randomConfig rand))

/-- `startGet`.  `localVersion` stands for
`globals.effectiveMessageVersion()` (modelled from the spec as the
local effective version; `globals.ts` is not among the sources), `rand`
for the randomness drawn by `rc4.randomConfig`, and `rs` for the
sixteen `Math.random()` draws of the session-id generator.  The two
precondition checks throw before any mutation.  On the success path the
method sets and announces the fresh proxying id, creates the engine,
registers the `onceStopping_` cleanup, moves to
`TRYING_TO_GET_ACCESS`, emits a `STATE` update, selects the transport
from `Math.min(localVersion, remoteVersion)` and starts the engine
(arming the then/catch chain on the returned promise). -/
def startGet (localVersion remoteVersion : Nat) (rand : Nat)
    (rs : Fin PROXYING_SESSION_ID_LENGTH → ℚ) (s : RemoteConnection) :
    Except String (RemoteConnection × List Update × PeerConnectionChoice) :=
  if s.localGettingFromRemote ≠ .NONE then .error "Currently have a connection open"
  else if s.socksToRtc_ then .error "socksToRtc_ already exists"
  else
    let pid := generateProxyingSessionId_ rs
    let metadataMsg : Update :=
      .SIGNALLING_MESSAGE .SIGNAL_FROM_CLIENT_PEER { proxyingId := some pid }
    let s2 : RemoteConnection :=
      { s with proxyingId_ := some pid
               socksToRtc_ := true
               getStartPending := true
               getStopCbPending := true
               getStopRequested := false
               localGettingFromRemote := .TRYING_TO_GET_ACCESS }
    let commonVersion := min localVersion remoteVersion
    let pc := selectGetPc commonVersion rand
    .ok (s2, [metadataMsg, stateRefresh_ s2], pc)

/-- The `socksToRtc_.start(...).then` handler: move to
`GETTING_ACCESS`, `stateRefresh_()` (note: taken before
`activeEndpoint` is assigned), record the endpoint, resolve the start
promise with it. -/
def getStartSuccess (endpoint : Endpoint) (s : RemoteConnection) :
    RemoteConnection × List Update × Endpoint :=
  let s1 : RemoteConnection :=
    { s with localGettingFromRemote := .GETTING_ACCESS, getStartPending := false }
  let s2 : RemoteConnection := { s1 with activeEndpoint := some endpoint }
  (s2, [stateRefresh_ s1], endpoint)

/-- The `socksToRtc_.start(...).catch` handler: reset the getting state
to `NONE`, emit a `STATE` update and reject the start promise with the
constant `Error('Could not start proxy')`; the caught cause `e` is
dropped. -/
def getStartFailure (e : String) (s : RemoteConnection) :
    RemoteConnection × List Update × String :=
  let s1 : RemoteConnection :=
    { s with localGettingFromRemote := .NONE, getStartPending := false }
  (s1, [stateRefresh_ s1], "Could not start proxy")

/-- The `socksToRtc_['onceStopping_'].then` cleanup: compute the error
flag from the state at that moment, emit `STOP_GETTING`, reset the
getting state, zero both byte counters, `stateRefresh_()` (note: taken
before `activeEndpoint` is cleared), then clear the engine reference
and the endpoint. -/
def getStoppingHandler (s : RemoteConnection) : RemoteConnection × List Update :=
  let isError : Bool := if s.localGettingFromRemote = .GETTING_ACCESS then true else false
  let s1 : RemoteConnection :=
    { s with localGettingFromRemote := .NONE, bytesSent_ := 0, bytesReceived_ := 0 }
  let s2 : RemoteConnection :=
    { s1 with socksToRtc_ := false, activeEndpoint := none, getStopCbPending := false }
  (s2, [.STOP_GETTING isError, stateRefresh_ s1])

/-- `stopGet`: when not getting, the code logs a warning and executes a
bare `return;`, handing `undefined` back despite the declared
`Promise<void>` return type; otherwise it resets the getting state,
emits one `STATE` update, calls `socksToRtc_.stop()` and returns that
engine promise.  The engine reference is not cleared here. -/
def stopGet (s : RemoteConnection) : RemoteConnection × List Update × Ret :=
  if s.localGettingFromRemote = .NONE then (s, [], .undef)
  else
    let s1 : RemoteConnection :=
      { s with localGettingFromRemote := .NONE, getStopRequested := true }
    (s1, [stateRefresh_ s1], .engineStopPromise)

/-- The events driving a session: the public calls and the
environment-fired callbacks (engine promises, byte-count events, the
debounce timeout, inbound signals). -/
inductive Event
  | callStartShare (remoteVersion : Nat)
  | callStopShare
  | sharerReady
  | sharerReadyFailure
  | sharerStopped
  | callStartGet (localVersion remoteVersion rand : Nat)
      (rs : Fin PROXYING_SESSION_ID_LENGTH → ℚ)
  | callStopGet
  | getSucceeded (endpoint : Endpoint)
  | getFailed (e : String)
  | getStopping
  | bytesReceivedEvt (fromSocksToRtc : Bool) (n : Int)
  | bytesSentEvt (fromSocksToRtc : Bool) (n : Int)
  | refreshTimeout
  | signalArrives (message : PeerMessage)

/-- The state component of one step.  A thrown `startShare`/`startGet`
aborts before any mutation, so the faulting branches leave the state
untouched. -/
def stepState (e : Event) (s : RemoteConnection) : RemoteConnection :=
  match e with
  | .callStartShare rv =>
      match startShare rv s with
      | .ok (s', _, _) => s'
      | .error _ => s
  | .callStopShare => (stopShare s).1
  | .sharerReady => (sharerReadyHandler s).1
  | .sharerReadyFailure => (sharerReadyFailureHandler s).1
  | .sharerStopped => (sharingReset_ s).1
  | .callStartGet lv rv rand rs =>
      match startGet lv rv rand rs s with
      | .ok (s', _, _) => s'
      | .error _ => s
  | .callStopGet => (stopGet s).1
  | .getSucceeded ep => (getStartSuccess ep s).1
  | .getFailed err => (getStartFailure err s).1
  | .getStopping => (getStoppingHandler s).1
  | .bytesReceivedEvt _ n => handleBytesReceived_ n s
  | .bytesSentEvt _ n => handleBytesSent_ n s
  | .refreshTimeout => (refreshTimeoutFires s).1
  | .signalArrives m => (handleSignal m s).1

/-- Which events the environment may fire in a state.  Public calls are
always allowed (misuse throws and is absorbed by `stepState`).
Callback events require the corresponding callback to be armed.
Modelled from the spec for the engines (their code is not among the
sources): each engine promise settles at most once, ready-resolution
and ready-rejection are exclusive, and an engine on which `stop()` has
been requested, or whose stopped/stopping signal has already fired,
does not subsequently resolve its ready/start promise (it rejects
instead).  Byte-count events can only come from a live engine. -/
def enabled (e : Event) (s : RemoteConnection) : Prop :=
  match e with
  | .callStartShare _ => True
  | .callStopShare => True
  | .sharerReady =>
      s.sharerReadyPending = true ∧ s.sharerStopRequested = false ∧
        s.sharerStopCbPending = true
  | .sharerReadyFailure => s.sharerReadyPending = true
  | .sharerStopped => s.sharerStopCbPending = true
  | .callStartGet _ _ _ _ => True
  | .callStopGet => True
  | .getSucceeded _ =>
      s.getStartPending = true ∧ s.getStopRequested = false ∧
        s.getStopCbPending = true
  | .getFailed _ => s.getStartPending = true
  | .getStopping => s.getStopCbPending = true
  | .bytesReceivedEvt fromS _ => (if fromS then s.socksToRtc_ else s.rtcToNet_) = true
  | .bytesSentEvt fromS _ => (if fromS then s.socksToRtc_ else s.rtcToNet_) = true
  | .refreshTimeout => s.pendingTimeout ≠ none
  | .signalArrives _ => True

/-- The states reachable from a freshly constructed session. -/
inductive Reach : RemoteConnection → Prop
  | init : Reach initialState
  | step {s : RemoteConnection} (e : Event) :
      Reach s → enabled e s → Reach (stepState e s)

/-- The structural invariant of reachable session states: a non-`NONE`
role state implies a live engine of that role, an armed-and-unstopped
ready/start chain pins the role in its `TRYING` state, and the stop
cleanup of an engine is armed exactly as long as the engine reference
is live. -/
def SessionInv (s : RemoteConnection) : Prop :=
  (s.localSharingWithRemote ≠ .NONE → s.rtcToNet_ = true)
  ∧ (s.sharerReadyPending = true → s.sharerStopRequested = false →
      s.sharerStopCbPending = true →
      s.localSharingWithRemote = .TRYING_TO_SHARE_ACCESS)
  ∧ s.sharerStopCbPending = s.rtcToNet_
  ∧ (s.localGettingFromRemote ≠ .NONE → s.socksToRtc_ = true)
  ∧ (s.getStartPending = true → s.getStopRequested = false →
      s.getStopCbPending = true →
      s.localGettingFromRemote = .TRYING_TO_GET_ACCESS)
  ∧ s.getStopCbPending = s.socksToRtc_

/-- The transitions the sharing state is allowed to take in one step:
stay put, or follow one edge of
`NONE → TRYING_TO_SHARE_ACCESS → SHARING_ACCESS → NONE` /
`NONE → TRYING_TO_SHARE_ACCESS → NONE`.  The skipping edge
`NONE → SHARING_ACCESS` and the reordering edge
`SHARING_ACCESS → TRYING_TO_SHARE_ACCESS` are excluded. -/
def SharingEdge (a b : SharingState) : Prop :=
  a = b
  ∨ (a = .NONE ∧ b = .TRYING_TO_SHARE_ACCESS)
  ∨ (a = .TRYING_TO_SHARE_ACCESS ∧ b = .SHARING_ACCESS)
  ∨ (a = .TRYING_TO_SHARE_ACCESS ∧ b = .NONE)
  ∨ (a = .SHARING_ACCESS ∧ b = .NONE)

/-- A byte-count event, as delivered to the shared handlers. -/
inductive ByteEvt
  | received (n : Int)
  | sent (n : Int)

/-- Dispatch one byte-count event to its handler. -/
def applyByteEvt (e : ByteEvt) (s : RemoteConnection) : RemoteConnection :=
  match e with
  | .received n => handleBytesReceived_ n s
  | .sent n => handleBytesSent_ n s

/-- Deliver a list of byte-count events in order. -/
def applyByteEvts (l : List ByteEvt) (s : RemoteConnection) : RemoteConnection :=
  l.foldl (fun s e => applyByteEvt e s) s

/-- The session state after a valid `startGet` on a fresh session
(concrete versions 5/5, randomness fixed to zero draws). -/
def c9AfterStartGet : RemoteConnection :=
  stepState (.callStartGet 5 5 0 fun _ => 0) initialState

/-- The session state immediately after `stopGet()` returns on that
session. -/
def c9AfterStopGet : RemoteConnection :=
  stepState .callStopGet c9AfterStartGet

/-! ## Helper lemmas -/

/-- Bounds for one draw of the session-id generator: with
`Math.random()` in `[0, 1)`, `randomCharCode_` lands in `[97, 121]` -
the code point 122 (lowercase z) is unreachable, because the factor is
`b - a = 25` rather than `b - a + 1`. -/
theorem randomCharCode_bounds (r : ℚ) (h0 : 0 ≤ r) (h1 : r < 1) :
    97 ≤ randomCharCode_ r ∧ randomCharCode_ r ≤ 121 := by
  unfold randomCharCode_
  have hnn : (0 : ℤ) ≤ ⌊r * (122 - 97 : ℚ)⌋ := Int.floor_nonneg.mpr (by positivity)
  have hlt : ⌊r * (122 - 97 : ℚ)⌋ < 25 := by
    rw [Int.floor_lt]
    have h25 : r * (122 - 97 : ℚ) < 25 := by nlinarith
    exact_mod_cast h25
  omega

/-- While a refresh is already pending, delivering any further
byte-count events changes nothing but the two byte counters: no update
is emitted (the handlers emit none by definition) and no further
timeout is scheduled. -/
theorem applyByteEvts_pending (l : List ByteEvt) :
    ∀ s : RemoteConnection, s.isUpdatePending_ = true →
      ∃ bs br, applyByteEvts l s =
        { s with bytesSent_ := bs, bytesReceived_ := br } := by
  induction l with
  | nil => exact fun s _ => ⟨s.bytesSent_, s.bytesReceived_, rfl⟩
  | cons e t ih =>
    intro s h
    have hpend : (applyByteEvt e s).isUpdatePending_ = true := by
      cases e <;>
        simp [applyByteEvt, handleBytesReceived_, handleBytesSent_, delayedUpdate_, h]
    obtain ⟨bs, br, hres⟩ := ih (applyByteEvt e s) hpend
    refine ⟨bs, br, ?_⟩
    have hstep : applyByteEvts (e :: t) s = applyByteEvts t (applyByteEvt e s) := rfl
    rw [hstep, hres]
    cases e <;>
      simp [applyByteEvt, handleBytesReceived_, handleBytesSent_, delayedUpdate_, h]

/-- One step preserves the structural invariant. -/
theorem sessionInv_step (e : Event) (s : RemoteConnection)
    (hs : SessionInv s) (he : enabled e s) : SessionInv (stepState e s) := by
  obtain ⟨h1, h2, h3, h4, h5, h6⟩ := hs
  cases e with
  | callStartShare rv =>
    by_cases hrtc : s.rtcToNet_ = true
    · simpa [stepState, startShare, hrtc] using ⟨h1, h2, h3, h4, h5, h6⟩
    · simp only [Bool.not_eq_true] at hrtc
      simp only [stepState, startShare, hrtc, Bool.false_eq_true, if_false]
      exact ⟨fun _ => rfl, fun _ _ _ => rfl, rfl, h4, h5, h6⟩
  | callStopShare =>
    by_cases hsh : s.localSharingWithRemote = .NONE
    · simpa [stepState, stopShare, hsh] using ⟨h1, h2, h3, h4, h5, h6⟩
    · simp only [stepState, stopShare, if_neg hsh]
      exact ⟨fun h => absurd rfl h, fun _ hb _ => Bool.noConfusion hb, h3, h4, h5, h6⟩
  | sharerReady =>
    obtain ⟨hrp, hsr, hscb⟩ := he
    simp only [stepState, sharerReadyHandler]
    exact ⟨fun _ => h3.symm.trans hscb, fun hb _ _ => Bool.noConfusion hb, h3, h4, h5, h6⟩
  | sharerReadyFailure =>
    by_cases hsh : s.localSharingWithRemote = .NONE
    · simp only [stepState, sharerReadyFailureHandler, stopShare, if_pos hsh]
      exact ⟨fun h => absurd hsh h, fun hb _ _ => Bool.noConfusion hb, h3, h4, h5, h6⟩
    · simp only [stepState, sharerReadyFailureHandler, stopShare, if_neg hsh]
      exact ⟨fun h => absurd rfl h, fun hb _ _ => Bool.noConfusion hb, h3, h4, h5, h6⟩
  | sharerStopped =>
    simp only [stepState, sharingReset_]
    exact ⟨fun h => absurd rfl h, fun _ _ hb => Bool.noConfusion hb, rfl, h4, h5, h6⟩
  | callStartGet lv rv rand rs =>
    by_cases hg : s.localGettingFromRemote = .NONE
    · by_cases hsock : s.socksToRtc_ = true
      · simpa [stepState, startGet, hg, hsock] using ⟨h1, h2, h3, h4, h5, h6⟩
      · simp only [Bool.not_eq_true] at hsock
        simp only [stepState, startGet, hg, ne_eq, not_true_eq_false, if_false, hsock,
          Bool.false_eq_true]
        exact ⟨h1, h2, h3, fun _ => rfl, fun _ _ _ => rfl, rfl⟩
    · have hg' : s.localGettingFromRemote ≠ .NONE := hg
      simpa [stepState, startGet, hg'] using ⟨h1, h2, h3, h4, h5, h6⟩
  | callStopGet =>
    by_cases hg : s.localGettingFromRemote = .NONE
    · simpa [stepState, stopGet, hg] using ⟨h1, h2, h3, h4, h5, h6⟩
    · simp only [stepState, stopGet, if_neg hg]
      exact ⟨h1, h2, h3, fun h => absurd rfl h, fun _ hb _ => Bool.noConfusion hb, h6⟩
  | getSucceeded ep =>
    obtain ⟨hgp, hgr, hgcb⟩ := he
    simp only [stepState, getStartSuccess]
    exact ⟨h1, h2, h3, fun _ => h6.symm.trans hgcb, fun hb _ _ => Bool.noConfusion hb, h6⟩
  | getFailed err =>
    simp only [stepState, getStartFailure]
    exact ⟨h1, h2, h3, fun h => absurd rfl h, fun hb _ _ => Bool.noConfusion hb, h6⟩
  | getStopping =>
    simp only [stepState, getStoppingHandler]
    exact ⟨h1, h2, h3, fun h => absurd rfl h, fun _ _ hb => Bool.noConfusion hb, rfl⟩
  | bytesReceivedEvt fromS n =>
    simp only [stepState, handleBytesReceived_, delayedUpdate_]
    split <;> exact ⟨h1, h2, h3, h4, h5, h6⟩
  | bytesSentEvt fromS n =>
    simp only [stepState, handleBytesSent_, delayedUpdate_]
    split <;> exact ⟨h1, h2, h3, h4, h5, h6⟩
  | refreshTimeout =>
    simp only [stepState, refreshTimeoutFires]
    exact ⟨h1, h2, h3, h4, h5, h6⟩
  | signalArrives m =>
    simp only [stepState, handleSignal, handleMetadataSignal_]
    split
    · exact ⟨h1, h2, h3, h4, h5, h6⟩
    · split
      · split
        · exact ⟨h1, h2, h3, h4, h5, h6⟩
        · exact ⟨h1, h2, h3, h4, h5, h6⟩
      · exact ⟨h1, h2, h3, h4, h5, h6⟩

/-- Every reachable session state satisfies the structural invariant. -/
theorem reach_sessionInv {s : RemoteConnection} (h : Reach s) : SessionInv s := by
  induction h with
  | init =>
    exact ⟨fun h => absurd rfl h, fun hb _ _ => Bool.noConfusion hb, rfl,
           fun h => absurd rfl h, fun hb _ _ => Bool.noConfusion hb, rfl⟩
  | @step s' e hr he ih => exact sessionInv_step e s' ih he

/-! ## Claims -/

/-- C1: for every pair of integer versions, `startGet` selects the
getting-role transport from `commonVersion = min(localEffectiveVersion,
remoteAdvertisedVersion)` according to the tier table: `PRE_BRIDGE`
selects the legacy direct peer-connection path, `BRIDGE` the bridge
path without obfuscation, `CAESAR` the bridge path with basic
(Caesar-style) obfuscation, `HOLOGRAPHIC_ICE` and `ENCRYPTED_SIGNALS`
both select holographic ICE with basic obfuscation, and every
`commonVersion` newer than all named tiers selects holographic ICE
with an rc4 stream-cipher obfuscation whose key comes from the fresh
randomness of that call (distinct draws give distinct keys). -/
theorem C1_startGet_version_negotiation
    (localVersion remoteVersion rand : Nat)
    (rs : Fin PROXYING_SESSION_ID_LENGTH → ℚ) (s : RemoteConnection)
    (hget : s.localGettingFromRemote = .NONE) (hsock : s.socksToRtc_ = false) :
    (startGet localVersion remoteVersion rand rs s).toOption.map (fun t => t.2.2) =
      some (selectGetPc (min localVersion remoteVersion) rand)
    ∧ selectGetPc MESSAGE_VERSIONS.PRE_BRIDGE rand = .peerConnectionClass
    ∧ selectGetPc MESSAGE_VERSIONS.BRIDGE rand = .bridgePreObfuscation
    ∧ selectGetPc MESSAGE_VERSIONS.CAESAR rand = .bridgeBasicObfuscation
    ∧ selectGetPc MESSAGE_VERSIONS.HOLOGRAPHIC_ICE rand = .bridgeHolographicIceOnly none
    ∧ selectGetPc MESSAGE_VERSIONS.ENCRYPTED_SIGNALS rand = .bridgeHolographicIceOnly none
    ∧ (∀ v, MESSAGE_VERSIONS.PRE_BRIDGE < v → MESSAGE_VERSIONS.BRIDGE < v →
        MESSAGE_VERSIONS.CAESAR < v → MESSAGE_VERSIONS.HOLOGRAPHIC_ICE < v →
        MESSAGE_VERSIONS.ENCRYPTED_SIGNALS < v →
        selectGetPc v rand = .bridgeHolographicIceOnly (some (rc4.randomConfig rand)))
    ∧ (∀ r r', rc4.randomConfig r = rc4.randomConfig r' → r = r') := by
  refine ⟨?_, rfl, rfl, rfl, rfl, rfl, ?_, ?_⟩
  · simp [startGet, hget, hsock, Except.toOption]
  · intro v hv1 hv2 hv3 hv4 hv5
    simp [selectGetPc, ne_of_gt hv1, ne_of_gt hv2, ne_of_gt hv3, ne_of_gt hv4, ne_of_gt hv5]
  · exact fun r r' h => congrArg Rc4Config.key h

theorem C1_startGet_version_negotiation_witness :
    ((startGet 5 5 0 (fun _ => 0) initialState).toOption.map (fun t => t.2.2) =
      some (selectGetPc (min 5 5) 0)
    ∧ selectGetPc MESSAGE_VERSIONS.PRE_BRIDGE 0 = .peerConnectionClass
    ∧ selectGetPc MESSAGE_VERSIONS.BRIDGE 0 = .bridgePreObfuscation
    ∧ selectGetPc MESSAGE_VERSIONS.CAESAR 0 = .bridgeBasicObfuscation
    ∧ selectGetPc MESSAGE_VERSIONS.HOLOGRAPHIC_ICE 0 = .bridgeHolographicIceOnly none
    ∧ selectGetPc MESSAGE_VERSIONS.ENCRYPTED_SIGNALS 0 = .bridgeHolographicIceOnly none
    ∧ (∀ v, MESSAGE_VERSIONS.PRE_BRIDGE < v → MESSAGE_VERSIONS.BRIDGE < v →
        MESSAGE_VERSIONS.CAESAR < v → MESSAGE_VERSIONS.HOLOGRAPHIC_ICE < v →
        MESSAGE_VERSIONS.ENCRYPTED_SIGNALS < v →
        selectGetPc v 0 = .bridgeHolographicIceOnly (some (rc4.randomConfig 0)))
    ∧ (∀ r r', rc4.randomConfig r = rc4.randomConfig r' → r = r')) :=
  C1_startGet_version_negotiation 5 5 0 (fun _ => 0) initialState rfl rfl

/-- C2: along every reachable trace of calls and engine/timer/signal
callbacks (with the spec-modelled engine contract recorded at
`enabled`), each step moves `localSharingWithRemote` along one edge of
`NONE → TRYING_TO_SHARE_ACCESS → SHARING_ACCESS → NONE` or
`NONE → TRYING_TO_SHARE_ACCESS → NONE`, or leaves it unchanged - never
skipping a state and never reordering. -/
theorem C2_sharingState_transitions (s : RemoteConnection) (e : Event)
    (hr : Reach s) (he : enabled e s) :
    SharingEdge s.localSharingWithRemote (stepState e s).localSharingWithRemote := by
  obtain ⟨h1, h2, h3, h4, h5, h6⟩ := reach_sessionInv hr
  cases e with
  | callStartShare rv =>
    by_cases hrtc : s.rtcToNet_ = true
    · left
      simp [stepState, startShare, hrtc]
    · have hsh : s.localSharingWithRemote = .NONE := by
        by_contra hne
        exact hrtc (h1 hne)
      simp only [Bool.not_eq_true] at hrtc
      simp only [stepState, startShare, hrtc, Bool.false_eq_true, if_false]
      exact Or.inr (Or.inl ⟨hsh, rfl⟩)
  | callStopShare =>
    by_cases hsh : s.localSharingWithRemote = .NONE
    · left
      simp [stepState, stopShare, hsh]
    · simp only [stepState, stopShare, if_neg hsh]
      cases hcs : s.localSharingWithRemote with
      | NONE => exact absurd hcs hsh
      | TRYING_TO_SHARE_ACCESS => exact Or.inr (Or.inr (Or.inr (Or.inl ⟨rfl, rfl⟩)))
      | SHARING_ACCESS => exact Or.inr (Or.inr (Or.inr (Or.inr ⟨rfl, rfl⟩)))
  | sharerReady =>
    obtain ⟨hrp, hsr, hscb⟩ := he
    simp only [stepState, sharerReadyHandler]
    exact Or.inr (Or.inr (Or.inl ⟨h2 hrp hsr hscb, rfl⟩))
  | sharerReadyFailure =>
    by_cases hsh : s.localSharingWithRemote = .NONE
    · left
      simp only [stepState, sharerReadyFailureHandler, stopShare, if_pos hsh]
    · simp only [stepState, sharerReadyFailureHandler, stopShare, if_neg hsh]
      cases hcs : s.localSharingWithRemote with
      | NONE => exact absurd hcs hsh
      | TRYING_TO_SHARE_ACCESS => exact Or.inr (Or.inr (Or.inr (Or.inl ⟨rfl, rfl⟩)))
      | SHARING_ACCESS => exact Or.inr (Or.inr (Or.inr (Or.inr ⟨rfl, rfl⟩)))
  | sharerStopped =>
    simp only [stepState, sharingReset_]
    cases hcs : s.localSharingWithRemote with
    | NONE => exact Or.inl rfl
    | TRYING_TO_SHARE_ACCESS => exact Or.inr (Or.inr (Or.inr (Or.inl ⟨rfl, rfl⟩)))
    | SHARING_ACCESS => exact Or.inr (Or.inr (Or.inr (Or.inr ⟨rfl, rfl⟩)))
  | callStartGet lv rv rand rs =>
    left
    by_cases hg : s.localGettingFromRemote = .NONE
    · by_cases hsock : s.socksToRtc_ = true
      · simp [stepState, startGet, hg, hsock]
      · simp only [Bool.not_eq_true] at hsock
        simp [stepState, startGet, hg, hsock]
    · have hg' : s.localGettingFromRemote ≠ .NONE := hg
      simp [stepState, startGet, hg']
  | callStopGet =>
    left
    by_cases hg : s.localGettingFromRemote = .NONE
    · simp [stepState, stopGet, hg]
    · simp only [stepState, stopGet, if_neg hg]
  | getSucceeded ep =>
    left
    simp only [stepState, getStartSuccess]
  | getFailed err =>
    left
    simp only [stepState, getStartFailure]
  | getStopping =>
    left
    simp only [stepState, getStoppingHandler]
  | bytesReceivedEvt fromS n =>
    left
    simp only [stepState, handleBytesReceived_, delayedUpdate_]
    split <;> rfl
  | bytesSentEvt fromS n =>
    left
    simp only [stepState, handleBytesSent_, delayedUpdate_]
    split <;> rfl
  | refreshTimeout =>
    left
    simp only [stepState, refreshTimeoutFires]
  | signalArrives m =>
    left
    simp only [stepState, handleSignal, handleMetadataSignal_]
    split
    · rfl
    · split
      · split <;> rfl
      · rfl

theorem C2_sharingState_transitions_witness :
    SharingEdge initialState.localSharingWithRemote
      (stepState .callStopShare initialState).localSharingWithRemote :=
  C2_sharingState_transitions initialState .callStopShare Reach.init trivial

/-- C3: calling `startGet` while `localGettingFromRemote` is not `NONE`
or while a getting engine already exists throws synchronously
(`Except.error`, the model of a thrown exception - not a rejected
returned future), and the state step absorbs the throw with no
mutation: all session fields, including both role states, the byte
counters, `proxyingId_`, `activeEndpoint` and both engine references,
keep their prior values. -/
theorem C3_startGet_misuse_faults
    (localVersion remoteVersion rand : Nat)
    (rs : Fin PROXYING_SESSION_ID_LENGTH → ℚ) (s : RemoteConnection)
    (h : s.localGettingFromRemote ≠ .NONE ∨ s.socksToRtc_ = true) :
    (∃ msg, startGet localVersion remoteVersion rand rs s = .error msg)
    ∧ stepState (.callStartGet localVersion remoteVersion rand rs) s = s := by
  rcases h with h | h
  · exact ⟨⟨"Currently have a connection open", by simp [startGet, h]⟩,
      by simp [stepState, startGet, h]⟩
  · by_cases hg : s.localGettingFromRemote = .NONE
    · exact ⟨⟨"socksToRtc_ already exists", by simp [startGet, hg, h]⟩,
        by simp [stepState, startGet, hg, h]⟩
    · have hg' : s.localGettingFromRemote ≠ .NONE := hg
      exact ⟨⟨"Currently have a connection open", by simp [startGet, hg']⟩,
        by simp [stepState, startGet, hg']⟩

theorem C3_startGet_misuse_faults_witness :
    ((∃ msg, startGet 5 5 0 (fun _ => 0)
        { initialState with localGettingFromRemote := .TRYING_TO_GET_ACCESS } = .error msg)
    ∧ stepState (.callStartGet 5 5 0 (fun _ => 0))
        { initialState with localGettingFromRemote := .TRYING_TO_GET_ACCESS } =
      { initialState with localGettingFromRemote := .TRYING_TO_GET_ACCESS }) :=
  C3_startGet_misuse_faults 5 5 0 (fun _ => 0)
    { initialState with localGettingFromRemote := .TRYING_TO_GET_ACCESS }
    (Or.inl (by decide))

/-- C4: the `.catch` handler armed on the future `startGet` returns
(dispatched by `stepState` on the `getFailed` event) resets
`localGettingFromRemote` to `NONE`, emits exactly one `STATE` update,
and rejects that future with the constant string
`"Could not start proxy"`; the result is independent of the caught
cause, so the original underlying cause is not carried to the
caller. -/
theorem C4_startGet_failure_is_generic (s : RemoteConnection) (cause cause' : String) :
    (getStartFailure cause s).1.localGettingFromRemote = .NONE
    ∧ (getStartFailure cause s).2.1 =
        [Update.STATE (getCurrentState (getStartFailure cause s).1)]
    ∧ (getStartFailure cause s).2.2 = "Could not start proxy"
    ∧ getStartFailure cause s = getStartFailure cause' s
    ∧ stepState (.getFailed cause) s = (getStartFailure cause s).1 :=
  ⟨rfl, rfl, rfl, rfl, rfl⟩

/-- C5 (as the code behaves): `stopShare` with `sharingState == NONE`
and `stopGet` with `gettingState == NONE` both log a warning, change no
session state and emit no update; `stopShare` returns
`Promise.resolve()`, but `stopGet` executes a bare `return;` and hands
back `undefined` (`Ret.undef`) instead of the `Promise<void>` its
signature declares. -/
theorem C5_stop_noop_behaviour (s : RemoteConnection)
    (hsh : s.localSharingWithRemote = .NONE)
    (hget : s.localGettingFromRemote = .NONE) :
    stopShare s = (s, [], Ret.resolvedPromise)
    ∧ stopGet s = (s, [], Ret.undef) := by
  constructor
  · simp [stopShare, hsh]
  · simp [stopGet, hget]

theorem C5_stop_noop_behaviour_witness :
    (stopShare initialState = (initialState, [], Ret.resolvedPromise)
    ∧ stopGet initialState = (initialState, [], Ret.undef)) :=
  C5_stop_noop_behaviour initialState rfl rfl

/-- C6: a `ForwardedSignal` envelope (one whose payload carries a
`signals` field) addressed to a role with no live engine - "from client
peer" with no `rtcToNet_` sharing engine, or "from server peer" with no
`socksToRtc_` getting engine - is logged and dropped by
`handleSignal`/`forwardSignal_`: the session state is returned
unchanged, no update is emitted and no fault is raised (the routing
total function has no throwing branch). -/
theorem C6_unroutable_forwarded_signal_dropped
    (s : RemoteConnection) (message : PeerMessage)
    (hforward : message.data.signals ≠ none)
    (hrole : (message.type = .SIGNAL_FROM_CLIENT_PEER ∧ s.rtcToNet_ = false)
      ∨ (message.type = .SIGNAL_FROM_SERVER_PEER ∧ s.socksToRtc_ = false)) :
    handleSignal message s = (s, [], SignalOutcome.droppedInvalid) := by
  rcases hrole with ⟨ht, hengine⟩ | ⟨ht, hengine⟩ <;>
    simp [handleSignal, forwardSignal_, hforward, ht, hengine]

theorem C6_unroutable_forwarded_signal_dropped_witness :
    handleSignal ⟨.SIGNAL_FROM_CLIENT_PEER, { signals := some [] }⟩ initialState =
      (initialState, [], SignalOutcome.droppedInvalid) :=
  C6_unroutable_forwarded_signal_dropped initialState
    ⟨.SIGNAL_FROM_CLIENT_PEER, { signals := some [] }⟩
    (by decide) (Or.inl ⟨rfl, rfl⟩)

/-- C7: within one debounce window, the first byte-count increment
arriving with no refresh pending arms one `setTimeout` with the fixed
1000 ms delay and marks a refresh pending; every further byte-count
event during the window changes only the byte counters (the handlers
emit no update and schedule nothing further, so the armed timeout is
exactly the one from the first increment); and when the timeout fires
it emits exactly one `STATE` update and clears the pending flag and the
timeout.  Hence N >= 1 byte events in the window yield exactly one
`STATE` update. -/
theorem C7_debounced_state_refresh (s : RemoteConnection)
    (e0 : ByteEvt) (rest : List ByteEvt)
    (h : s.isUpdatePending_ = false) :
    (applyByteEvt e0 s).isUpdatePending_ = true
    ∧ (applyByteEvt e0 s).pendingTimeout = some 1000
    ∧ (∃ bs br, applyByteEvts rest (applyByteEvt e0 s) =
        { applyByteEvt e0 s with bytesSent_ := bs, bytesReceived_ := br })
    ∧ (refreshTimeoutFires (applyByteEvts rest (applyByteEvt e0 s))).2 =
        [Update.STATE (getCurrentState (applyByteEvts rest (applyByteEvt e0 s)))]
    ∧ (refreshTimeoutFires (applyByteEvts rest (applyByteEvt e0 s))).1.isUpdatePending_ = false
    ∧ (refreshTimeoutFires (applyByteEvts rest (applyByteEvt e0 s))).1.pendingTimeout = none := by
  have h1 : (applyByteEvt e0 s).isUpdatePending_ = true := by
    cases e0 <;>
      simp [applyByteEvt, handleBytesReceived_, handleBytesSent_, delayedUpdate_, h]
  refine ⟨h1, ?_, applyByteEvts_pending rest _ h1, rfl, rfl, rfl⟩
  cases e0 <;>
    simp [applyByteEvt, handleBytesReceived_, handleBytesSent_, delayedUpdate_, h]

theorem C7_debounced_state_refresh_witness :
    ((applyByteEvt (.received 7) initialState).isUpdatePending_ = true
    ∧ (applyByteEvt (.received 7) initialState).pendingTimeout = some 1000
    ∧ (∃ bs br, applyByteEvts [.sent 3, .received 2] (applyByteEvt (.received 7) initialState) =
        { applyByteEvt (.received 7) initialState with bytesSent_ := bs, bytesReceived_ := br })
    ∧ (refreshTimeoutFires
          (applyByteEvts [.sent 3, .received 2] (applyByteEvt (.received 7) initialState))).2 =
        [Update.STATE (getCurrentState
          (applyByteEvts [.sent 3, .received 2] (applyByteEvt (.received 7) initialState)))]
    ∧ (refreshTimeoutFires
          (applyByteEvts [.sent 3, .received 2]
            (applyByteEvt (.received 7) initialState))).1.isUpdatePending_ = false
    ∧ (refreshTimeoutFires
          (applyByteEvts [.sent 3, .received 2]
            (applyByteEvt (.received 7) initialState))).1.pendingTimeout = none) :=
  C7_debounced_state_refresh initialState (.received 7) [.sent 3, .received 2] rfl

/-- C8 (as the code behaves): with every `Math.random()` draw in
`[0, 1)`, `generateProxyingSessionId_` produces a string of exactly 16
characters whose char codes all lie in `[97, 121]` - the letters a
through y.  The code point 122 (lowercase z) never occurs, because the
generator multiplies by `b - a = 25` instead of `b - a + 1`, although
its own comment promises "between 97 and 122 inclusive, corresponding
to lowercase a and z".  This refutes the claim that the id is drawn
from all of a..z with every lowercase letter able to occur. -/
theorem C8_generator_sixteen_chars_never_z
    (rs : Fin PROXYING_SESSION_ID_LENGTH → ℚ)
    (h : ∀ i, 0 ≤ rs i ∧ rs i < 1) :
    (generateProxyingSessionId_ rs).length = PROXYING_SESSION_ID_LENGTH
    ∧ (∀ c ∈ proxyingSessionIdCodes_ rs, 97 ≤ c ∧ c ≤ 121)
    ∧ 122 ∉ proxyingSessionIdCodes_ rs := by
  have hmem : ∀ c ∈ proxyingSessionIdCodes_ rs, 97 ≤ c ∧ c ≤ 121 := by
    intro c hc
    simp only [proxyingSessionIdCodes_, List.mem_map, List.mem_finRange, true_and] at hc
    obtain ⟨i, rfl⟩ := hc
    exact randomCharCode_bounds (rs i) (h i).1 (h i).2
  refine ⟨?_, hmem, fun hz => ?_⟩
  · simp [generateProxyingSessionId_, proxyingSessionIdCodes_, String.length]
  · have := (hmem 122 hz).2
    omega

theorem C8_generator_sixteen_chars_never_z_witness :
    ((generateProxyingSessionId_ (fun _ => (0 : ℚ))).length = PROXYING_SESSION_ID_LENGTH
    ∧ (∀ c ∈ proxyingSessionIdCodes_ (fun _ => (0 : ℚ)), 97 ≤ c ∧ c ≤ 121)
    ∧ 122 ∉ proxyingSessionIdCodes_ (fun _ => (0 : ℚ))) :=
  by
  have h01 : (0 : ℚ) < 1 := by decide
  exact C8_generator_sixteen_chars_never_z (fun _ => (0 : ℚ)) (fun i => ⟨le_refl 0, h01⟩)

/-- C9 counterexample: a concrete reachable session state - reached by
a valid `startGet` followed by `stopGet` - in which
`localGettingFromRemote` is `NONE` while the getting-engine reference
`socksToRtc_` is still live: `stopGet` does not null the reference
(only the `onceStopping_` cleanup does, and it has not run yet).  This
refutes the claim that `gettingState == NONE` implies a null
getting-engine reference immediately after `stopGet` returns. -/
theorem C9_counterexample_stopGet_leaves_engine_reference :
    Reach c9AfterStopGet
    ∧ c9AfterStopGet.localGettingFromRemote = .NONE
    ∧ c9AfterStopGet.socksToRtc_ = true := by
  refine ⟨?_, rfl, rfl⟩
  exact Reach.step .callStopGet
    (Reach.step (.callStartGet 5 5 0 fun _ => 0) Reach.init trivial) trivial

/-- C9 amended: in every reachable session state, a non-`NONE`
`localGettingFromRemote` implies a live getting engine; and whenever
`localGettingFromRemote` is `NONE` the engine reference is null unless
the engine's stop-cleanup handler (`onceStopping_.then`) is still
pending - as it is immediately after `stopGet` returns and after a
start failure, since only that handler clears the reference. -/
theorem C9_amended_getting_engine_liveness (s : RemoteConnection) (hr : Reach s) :
    (s.localGettingFromRemote ≠ .NONE → s.socksToRtc_ = true)
    ∧ (s.localGettingFromRemote = .NONE →
        s.socksToRtc_ = false ∨ s.getStopCbPending = true) := by
  obtain ⟨h1, h2, h3, h4, h5, h6⟩ := reach_sessionInv hr
  refine ⟨h4, fun _ => ?_⟩
  cases hcb : s.socksToRtc_ with
  | false => exact Or.inl rfl
  | true => exact Or.inr (h6.trans hcb)

theorem C9_amended_getting_engine_liveness_witness :
    ((initialState.localGettingFromRemote ≠ .NONE → initialState.socksToRtc_ = true)
    ∧ (initialState.localGettingFromRemote = .NONE →
        initialState.socksToRtc_ = false ∨ initialState.getStopCbPending = true)) :=
  C9_amended_getting_engine_liveness initialState Reach.init

/-- C10: the session keeps one shared pair of byte counters for both
roles.  A byte-count event is handled identically whether it comes
from the getting engine or the sharing engine (both are wired to the
same `handleBytesReceived_`/`handleBytesSent_` handlers, which add to
the same `bytesReceived_`/`bytesSent_` fields); and the stop cleanup of
either role (`sharingReset_`, resp. the `onceStopping_` handler) resets
both counters to exactly zero while leaving the other role's state and
engine untouched - so one role's stop erases the other role's
accumulated byte counts even while that other role stays active. -/
theorem C10_shared_byte_counters (s : RemoteConnection) (n : Int) :
    stepState (.bytesReceivedEvt true n) s = stepState (.bytesReceivedEvt false n) s
    ∧ stepState (.bytesSentEvt true n) s = stepState (.bytesSentEvt false n) s
    ∧ (handleBytesReceived_ n s).bytesReceived_ = s.bytesReceived_ + n
    ∧ (handleBytesSent_ n s).bytesSent_ = s.bytesSent_ + n
    ∧ (sharingReset_ s).1.bytesSent_ = 0
    ∧ (sharingReset_ s).1.bytesReceived_ = 0
    ∧ (sharingReset_ s).1.localGettingFromRemote = s.localGettingFromRemote
    ∧ (sharingReset_ s).1.socksToRtc_ = s.socksToRtc_
    ∧ (getStoppingHandler s).1.bytesSent_ = 0
    ∧ (getStoppingHandler s).1.bytesReceived_ = 0
    ∧ (getStoppingHandler s).1.localSharingWithRemote = s.localSharingWithRemote
    ∧ (getStoppingHandler s).1.rtcToNet_ = s.rtcToNet_ := by
  refine ⟨rfl, rfl, ?_, ?_, rfl, rfl, rfl, rfl, rfl, rfl, rfl, rfl⟩
  · simp only [handleBytesReceived_, delayedUpdate_]
    split <;> rfl
  · simp only [handleBytesSent_, delayedUpdate_]
    split <;> rfl
